import Mathlib

/-!
Shallow embedding of the risk-gated trading engine of this repository.

The risk layer comes from `src/core/risk_manager.py`: Python `Decimal`
arithmetic (exact for the additions, subtractions and comparisons used
there) is modelled over `ℚ`, raised exceptions are modelled as explicit
result values, and the mutable `RiskManager` object is modelled as
explicit state passing over `RiskState`.

The strategy layer comes from `src/strategies/base_strategy.py` and
`src/strategies/stat_arb_pairs.py`.
-/

namespace PropFirm

/-- The exception classes of `src/core/risk_manager.py` (lines 10-24):
`DailyLossLimitExceeded`, `MaxDrawdownExceeded` and `OrderRejectedRisk`,
all subclasses of `RiskException`. -/
inductive RiskExc where
  | dailyLossLimitExceeded
  | maxDrawdownExceeded
  | orderRejectedRisk
  deriving DecidableEq, Repr

/-- `RiskConfig` (risk_manager.py lines 28-38): the immutable prop-firm
constraints. `daily_reset_hour` is omitted: no modelled operation reads it. -/
structure RiskConfig where
  max_daily_loss : ℚ
  max_total_loss : ℚ
  max_position_size : ℚ
  max_leverage : ℚ
  deriving DecidableEq, Repr

/-- The mutable fields of `RiskManager` (risk_manager.py lines 47-60). -/
structure RiskState where
  initial_balance : ℚ
  current_balance : ℚ
  starting_day_balance : ℚ
  current_daily_pnl : ℚ
  current_total_pnl : ℚ
  circuit_breaker_tripped : Bool
  deriving DecidableEq, Repr

/-- `RiskManager.__init__` (risk_manager.py lines 47-60): every balance
anchor is the initial balance, both PnL counters are zero, the breaker
starts untripped. -/
def initRiskState (initial_balance : ℚ) : RiskState :=
  { initial_balance := initial_balance
    current_balance := initial_balance
    starting_day_balance := initial_balance
    current_daily_pnl := 0
    current_total_pnl := 0
    circuit_breaker_tripped := false }

/-- `RiskManager.check_risk_status` (risk_manager.py lines 96-114).
The daily-loss test runs first; a failed test sets the breaker and then
raises, modelled as `some` of the raised exception next to the new state. -/
def check_risk_status (cfg : RiskConfig) (s : RiskState) :
    RiskState × Option RiskExc :=
  if s.current_daily_pnl ≤ -cfg.max_daily_loss then
    ({ s with circuit_breaker_tripped := true }, some .dailyLossLimitExceeded)
  else if s.current_total_pnl ≤ -cfg.max_total_loss then
    ({ s with circuit_breaker_tripped := true }, some .maxDrawdownExceeded)
  else
    (s, none)

/-- `RiskManager.update_pnl` (risk_manager.py lines 67-94): no-op while
tripped; otherwise recomputes total PnL, balance and daily PnL (the broker
override when given, else equity minus the day anchor) and re-raises
whatever `check_risk_status` raises. -/
def update_pnl (cfg : RiskConfig) (s : RiskState) (current_equity : ℚ)
    (current_day_pnl : Option ℚ) : RiskState × Option RiskExc :=
  if s.circuit_breaker_tripped then (s, none)
  else
    check_risk_status cfg
      { s with
        current_total_pnl := current_equity - s.initial_balance
        current_balance := current_equity
        current_daily_pnl :=
          current_day_pnl.getD (current_equity - s.starting_day_balance) }

/-- Outcome of `RiskManager.can_execute_trade`: a returned boolean, a
raised `RiskException`, or the `decimal.DivisionByZero` error that Python
raises when the leverage ratio divides by a zero balance. -/
inductive CanExecResult where
  | ok (approved : Bool)
  | raised (e : RiskExc)
  | divisionByZero
  deriving DecidableEq, Repr

/-- `RiskManager.can_execute_trade` (risk_manager.py lines 116-152):
false immediately while tripped; an in-line `check_risk_status` whose
exception is swallowed into `False` (its state change persists); the
exposure check raising `OrderRejectedRisk`; the leverage check
`(balance + trade) / balance > max_leverage + 0.1`, which divides by the
current balance with no zero guard. -/
def can_execute_trade (cfg : RiskConfig) (s : RiskState)
    (trade_size_notional : ℚ) (current_position_notional : ℚ) :
    RiskState × CanExecResult :=
  if s.circuit_breaker_tripped then (s, .ok false)
  else
    let total_exposure := trade_size_notional + current_position_notional
    match check_risk_status cfg s with
    | (s1, some _) => (s1, .ok false)
    | (s1, none) =>
      if cfg.max_position_size < total_exposure then
        (s1, .raised .orderRejectedRisk)
      else if s1.current_balance = 0 then
        (s1, .divisionByZero)
      else if cfg.max_leverage + 1/10 <
          (s1.current_balance + trade_size_notional) / s1.current_balance then
        (s1, .raised .orderRejectedRisk)
      else
        (s1, .ok true)

/-- `RiskManager.reset_daily_stats` (risk_manager.py lines 154-170):
no-op when total PnL already sits at or below the total-loss floor;
otherwise re-anchors the day balance, zeroes daily PnL, and untrips the
breaker when the freshly zeroed daily PnL sits above the negated
total-loss limit. -/
def reset_daily_stats (cfg : RiskConfig) (s : RiskState)
    (current_equity : ℚ) : RiskState :=
  if s.current_total_pnl ≤ -cfg.max_total_loss then s
  else
    let s1 := { s with
      starting_day_balance := current_equity
      current_daily_pnl := 0 }
    if -cfg.max_total_loss < s1.current_daily_pnl then
      { s1 with circuit_breaker_tripped := false }
    else s1

/-- The `RiskManager` operations other than `reset_daily_stats`, as
invoked by the strategy loops. -/
inductive RiskOp where
  | updatePnl (current_equity : ℚ) (current_day_pnl : Option ℚ)
  | checkStatus
  | canExecute (trade_size_notional current_position_notional : ℚ)

/-- State transition of one `RiskOp` (the raised exception or returned
boolean is dropped; only the state effect remains). -/
def applyOp (cfg : RiskConfig) (s : RiskState) : RiskOp → RiskState
  | .updatePnl e d => (update_pnl cfg s e d).1
  | .checkStatus => (check_risk_status cfg s).1
  | .canExecute t p => (can_execute_trade cfg s t p).1

/-- State after a sequence of `RiskOp`s, oldest first. -/
def runOps (cfg : RiskConfig) (s : RiskState) : List RiskOp → RiskState
  | [] => s
  | op :: ops => runOps cfg (applyOp cfg s op) ops

/-- Outcome of `BaseStrategy.execute_order` (base_strategy.py lines
106-119): the order is dropped when the gate returns false, submitted to
the broker when it returns true, and any exception the gate raises
escapes `execute_order`, which has no handler. -/
inductive ExecOutcome where
  | dropped
  | submitted
  | exceptionEscaped (e : RiskExc)
  | divisionErrorEscaped
  deriving DecidableEq, Repr

/-- `BaseStrategy.execute_order` (base_strategy.py lines 106-119): the
gate is `can_execute_trade(trade_size_notional=qty * 100)` — the
hard-coded $100-per-share approximation — with
`current_position_notional` left at its default `0.0`. -/
def execute_order (cfg : RiskConfig) (s : RiskState) (qty : ℚ) :
    RiskState × ExecOutcome :=
  match can_execute_trade cfg s (qty * 100) 0 with
  | (s1, .ok false) => (s1, .dropped)
  | (s1, .ok true) => (s1, .submitted)
  | (s1, .raised e) => (s1, .exceptionEscaped e)
  | (s1, .divisionByZero) => (s1, .divisionErrorEscaped)

/-- `BaseStrategy.run` (base_strategy.py lines 47-88): any exception
escaping `calculate_signals` is caught by the loop's blanket handler,
which calls `emergency_stop`; `emergency_stop` (lines 121-126) sets
`is_running = False`, ending the loop. So the loop keeps running exactly
when `execute_order` finished without an escaping exception. -/
def run_step_continues : ExecOutcome → Bool
  | .dropped => true
  | .submitted => true
  | .exceptionEscaped _ => false
  | .divisionErrorEscaped => false

/-- Modelled from the spec: the gated order path of §4.4, which the
repository's `BaseStrategy.execute_order` is claimed to implement —
call `canExecuteTrade` with full notional (existing+incoming), the
incoming notional being price × quantity. The repository's own gate is
`execute_order` above; this definition exists only to be compared with
it. -/
def execute_order_fullNotional (cfg : RiskConfig) (s : RiskState)
    (price qty existing : ℚ) : RiskState × ExecOutcome :=
  match can_execute_trade cfg s (price * qty) existing with
  | (s1, .ok false) => (s1, .dropped)
  | (s1, .ok true) => (s1, .submitted)
  | (s1, .raised e) => (s1, .exceptionEscaped e)
  | (s1, .divisionByZero) => (s1, .divisionErrorEscaped)

/-- The action `StatArbPairs.calculate_signals` takes on one tick
(stat_arb_pairs.py lines 44-110): nothing, the catastrophe flatten, one
of the two pair entries, or the mean-reversion exit flatten. -/
inductive Signal where
  | hold
  | catastropheFlatten
  | enterShortAlongB
  | enterLongAShortB
  | exitFlatten
  deriving DecidableEq, Repr

/-- The decision core of `StatArbPairs.calculate_signals`
(stat_arb_pairs.py lines 74-110), reached once the guards have passed,
as a function of the computed z-score and of whether each leg of the
pair is in the position cache. The catastrophe branch returns from the
tick whether or not it flattened; both entry branches test only
`self.symbol_a not in self.positions`; the exit branch tests either
leg. Thresholds are the hard-coded 4.0 and 0.5 and the configured
`z_score_threshold = 2.1`. -/
def signal_logic (hasA hasB : Bool) (z : ℚ) : Signal :=
  if 4 < |z| then
    if hasA || hasB then .catastropheFlatten else .hold
  else if 21/10 < z then
    if hasA = false then .enterShortAlongB else .hold
  else if z < -(21/10) then
    if hasA = false then .enterLongAShortB else .hold
  else if |z| < 1/2 then
    if hasA || hasB then .exitFlatten else .hold
  else .hold

/-- Position-cache effect of one signal: entries put both legs in the
cache, either flatten clears it (`self.positions.clear()`), hold leaves
it unchanged. -/
def signal_apply (hasA hasB : Bool) : Signal → Bool × Bool
  | .hold => (hasA, hasB)
  | .catastropheFlatten => (false, false)
  | .exitFlatten => (false, false)
  | .enterShortAlongB => (true, true)
  | .enterLongAShortB => (true, true)

/-- Flat means neither leg of the pair is held. -/
def isFlat (hasA hasB : Bool) : Bool := !hasA && !hasB

/-- `np.mean` of the spread history (stat_arb_pairs.py line 66):
arithmetic mean. -/
def spreadMean (l : List ℚ) : ℚ := l.sum / l.length

/-- Population variance of the spread history, the square of the
`np.std` of stat_arb_pairs.py line 67. The code's guard `std == 0` is
equivalent to the variance being 0, which keeps the embedding inside ℚ. -/
def spreadVar (l : List ℚ) : ℚ :=
  (l.map (fun x => (x - spreadMean l) ^ 2)).sum / l.length

/-- `deque(maxlen=w).append`: the new value goes on the right and the
oldest entries fall off the left once the window is full. -/
def deqAppend (w : Nat) (h : List ℚ) (x : ℚ) : List ℚ :=
  List.drop ((h ++ [x]).length - w) (h ++ [x])

/-- One tick of `StatArbPairs.calculate_signals` after warm-up
(stat_arb_pairs.py lines 49-110): the zero-price guard, the deque
append, the short-history guard, the zero-std guard, then the decision
core. `z` stands for the z-score `(spread − mean)/std` the code computes
at line 71; it is passed in abstractly because the square root of the
variance is irrational in general, and every branch below the guards is
a function of it. -/
def calculate_signals_tick (w : Nat) (hasA hasB : Bool) (history : List ℚ)
    (priceA priceB : ℚ) (z : ℚ) : Signal :=
  if priceA = 0 ∨ priceB = 0 then .hold
  else
    let spreads := deqAppend w history (priceA - priceB)
    if spreads.length < w then .hold
    else if spreadVar spreads = 0 then .hold
    else signal_logic hasA hasB z

/-- The worked configuration of risk_manager.py lines 28-38: daily loss
$500, total loss $1000, max position $10000, leverage 1. -/
def demoConfig : RiskConfig := ⟨500, 1000, 10000, 1⟩

/-- Same limits with a $15000 position cap, used where an order must
pass one gate and fail the other. -/
def wideConfig : RiskConfig := ⟨500, 1000, 15000, 1⟩

/-- A fresh $100000 account whose breaker has been tripped. -/
def trippedState : RiskState :=
  { initRiskState 100000 with circuit_breaker_tripped := true }

/-- An account past the total-loss floor: equity $98500 against an
initial $100000 under `demoConfig`’s $1000 total-loss limit. -/
def blownState : RiskState :=
  { initRiskState 100000 with
    current_balance := 98500
    current_total_pnl := -1500
    current_daily_pnl := -1500
    circuit_breaker_tripped := true }

/-- Helper: `check_risk_status` that raises nothing leaves the state
untouched. -/
theorem check_risk_status_eq_of_none (cfg : RiskConfig) (s : RiskState)
    (h : (check_risk_status cfg s).2 = none) :
    check_risk_status cfg s = (s, none) := by
  by_cases h1 : s.current_daily_pnl ≤ -cfg.max_daily_loss
  · simp [check_risk_status, h1] at h
  · by_cases h2 : s.current_total_pnl ≤ -cfg.max_total_loss
    · simp [check_risk_status, h1, h2] at h
    · simp [check_risk_status, h1, h2]

/-- Helper: `check_risk_status` never changes the cached balance. -/
theorem check_risk_status_balance (cfg : RiskConfig) (s : RiskState) :
    (check_risk_status cfg s).1.current_balance = s.current_balance := by
  unfold check_risk_status
  split
  · rfl
  · split <;> rfl

/-- Helper: `check_risk_status` never clears the breaker. -/
theorem check_risk_status_keeps_trip (cfg : RiskConfig) (s : RiskState)
    (h : s.circuit_breaker_tripped = true) :
    (check_risk_status cfg s).1.circuit_breaker_tripped = true := by
  unfold check_risk_status
  split
  · rfl
  · split
    · rfl
    · exact h

/-- Helper: `update_pnl` never clears the breaker (it is a no-op while
tripped). -/
theorem update_pnl_keeps_trip (cfg : RiskConfig) (s : RiskState)
    (e : ℚ) (d : Option ℚ) (h : s.circuit_breaker_tripped = true) :
    (update_pnl cfg s e d).1.circuit_breaker_tripped = true := by
  simp [update_pnl, h]

/-- Helper: `can_execute_trade` never clears the breaker (it returns
false immediately while tripped). -/
theorem can_execute_trade_keeps_trip (cfg : RiskConfig) (s : RiskState)
    (t p : ℚ) (h : s.circuit_breaker_tripped = true) :
    (can_execute_trade cfg s t p).1.circuit_breaker_tripped = true := by
  simp [can_execute_trade, h]

/-- Helper: no single non-reset operation clears the breaker. -/
theorem applyOp_keeps_trip (cfg : RiskConfig) (s : RiskState) (op : RiskOp)
    (h : s.circuit_breaker_tripped = true) :
    (applyOp cfg s op).circuit_breaker_tripped = true := by
  cases op with
  | updatePnl e d => exact update_pnl_keeps_trip cfg s e d h
  | checkStatus => exact check_risk_status_keeps_trip cfg s h
  | canExecute t p => exact can_execute_trade_keeps_trip cfg s t p h

/-- C1: once `circuitBreakerTripped` is set, any sequence of
`update_pnl`, `check_risk_status` and `can_execute_trade` calls leaves
it set — only `reset_daily_stats` (absent from `RiskOp`) can clear it. -/
theorem circuit_breaker_latch (cfg : RiskConfig) (s : RiskState)
    (ops : List RiskOp) (h : s.circuit_breaker_tripped = true) :
    (runOps cfg s ops).circuit_breaker_tripped = true := by
  induction ops generalizing s with
  | nil => exact h
  | cons op ops ih => exact ih (applyOp cfg s op) (applyOp_keeps_trip cfg s op h)

/-- Witness for C1: a tripped $100000 account stays tripped through an
update, a status check and a trade gate. -/
theorem circuit_breaker_latch_witness :
    (runOps demoConfig trippedState
      [.updatePnl 99990 none, .checkStatus, .canExecute 300 0]
      ).circuit_breaker_tripped = true :=
  circuit_breaker_latch demoConfig trippedState
    [.updatePnl 99990 none, .checkStatus, .canExecute 300 0] rfl

/-- C3: `check_risk_status` raises `DailyLossLimitExceeded` exactly when
daily PnL sits at or below the negated daily limit; otherwise it raises
`MaxDrawdownExceeded` exactly when total PnL sits at or below the
negated total limit; a raise always leaves the breaker set. With
`max_daily_loss = 500` on a fresh $100000 account, `update_pnl 99600`
passes and `update_pnl 99400` raises `DailyLossLimitExceeded` with the
breaker tripped. -/
theorem check_risk_status_correct :
    (∀ (cfg : RiskConfig) (s : RiskState),
      ((check_risk_status cfg s).2 = some RiskExc.dailyLossLimitExceeded ↔
        s.current_daily_pnl ≤ -cfg.max_daily_loss)
      ∧ ((check_risk_status cfg s).2 = some RiskExc.maxDrawdownExceeded ↔
          (¬ s.current_daily_pnl ≤ -cfg.max_daily_loss ∧
            s.current_total_pnl ≤ -cfg.max_total_loss))
      ∧ ((check_risk_status cfg s).1.circuit_breaker_tripped =
          (s.circuit_breaker_tripped
            || decide (s.current_daily_pnl ≤ -cfg.max_daily_loss)
            || decide (s.current_total_pnl ≤ -cfg.max_total_loss))))
    ∧ (update_pnl demoConfig (initRiskState 100000) 99600 none).2 = none
    ∧ (update_pnl demoConfig
        (update_pnl demoConfig (initRiskState 100000) 99600 none).1
        99400 none).2 = some RiskExc.dailyLossLimitExceeded
    ∧ (update_pnl demoConfig
        (update_pnl demoConfig (initRiskState 100000) 99600 none).1
        99400 none).1.circuit_breaker_tripped = true := by
  refine ⟨fun cfg s => ?_, ?_, ?_, ?_⟩
  · by_cases h1 : s.current_daily_pnl ≤ -cfg.max_daily_loss
    · simp [check_risk_status, h1]
    · by_cases h2 : s.current_total_pnl ≤ -cfg.max_total_loss
      · simp [check_risk_status, h1, h2]
      · simp [check_risk_status, h1, h2]
  · norm_num [update_pnl, check_risk_status, initRiskState, demoConfig]
  · norm_num [update_pnl, check_risk_status, initRiskState, demoConfig]
  · norm_num [update_pnl, check_risk_status, initRiskState, demoConfig]

/-- C4: while tripped, `can_execute_trade` returns false for every trade
size and every existing exposure, without touching the state, so a
repeated call returns false again. -/
theorem can_execute_trade_tripped_false (cfg : RiskConfig) (s : RiskState)
    (t p : ℚ) (h : s.circuit_breaker_tripped = true) :
    can_execute_trade cfg s t p = (s, .ok false)
    ∧ can_execute_trade cfg (can_execute_trade cfg s t p).1 t p
        = (s, .ok false) := by
  have h1 : can_execute_trade cfg s t p = (s, .ok false) := by
    simp [can_execute_trade, h]
  exact ⟨h1, by rw [h1]; exact h1⟩

/-- Witness for C4: the tripped $100000 account rejects a $300 trade
twice over, leaving state untouched. -/
theorem can_execute_trade_tripped_false_witness :
    can_execute_trade demoConfig trippedState 300 40 = (trippedState, .ok false)
    ∧ can_execute_trade demoConfig
        (can_execute_trade demoConfig trippedState 300 40).1 300 40
        = (trippedState, .ok false) :=
  can_execute_trade_tripped_false demoConfig trippedState 300 40 rfl

/-- C5: `reset_daily_stats` is the identity when total PnL already sits
at or below the total-loss floor — in particular the breaker stays
tripped there; otherwise (for a positive total-loss limit) it anchors
the day balance to the given equity, zeroes daily PnL and untrips the
breaker — reachable only when the total-loss floor is not breached. -/
theorem reset_daily_stats_correct (cfg : RiskConfig) (s : RiskState)
    (e : ℚ) :
    (s.current_total_pnl ≤ -cfg.max_total_loss →
      reset_daily_stats cfg s e = s)
    ∧ (¬ s.current_total_pnl ≤ -cfg.max_total_loss →
        0 < cfg.max_total_loss →
        reset_daily_stats cfg s e =
          { s with
            starting_day_balance := e
            current_daily_pnl := 0
            circuit_breaker_tripped := false }) := by
  constructor
  · intro h
    simp [reset_daily_stats, h]
  · intro h hpos
    simp [reset_daily_stats, h, hpos]

/-- Witness for C5: the blown account is untouched (breaker kept), while
the merely daily-tripped account is re-anchored to $99700 and untripped. -/
theorem reset_daily_stats_correct_witness :
    reset_daily_stats demoConfig blownState 98500 = blownState
    ∧ reset_daily_stats demoConfig trippedState 99700 =
        { trippedState with
          starting_day_balance := 99700
          current_daily_pnl := 0
          circuit_breaker_tripped := false } :=
  ⟨(reset_daily_stats_correct demoConfig blownState 98500).1
      (by norm_num [blownState, initRiskState, demoConfig]),
   (reset_daily_stats_correct demoConfig trippedState 99700).2
      (by norm_num [trippedState, initRiskState, demoConfig])
      (by norm_num [demoConfig])⟩

/-- C10: when the breaker is untripped, the status check raises nothing,
the exposure check passes and the cached balance is zero, the leverage
ratio of `can_execute_trade` divides by zero (Python `Decimal` raises
there); with a nonzero balance the division never occurs, so the gate is
total exactly under the precondition `current_balance ≠ 0`. -/
theorem can_execute_trade_zero_balance (cfg : RiskConfig) (s : RiskState)
    (t p : ℚ) :
    (s.circuit_breaker_tripped = false →
      (check_risk_status cfg s).2 = none →
      ¬ cfg.max_position_size < t + p →
      s.current_balance = 0 →
      (can_execute_trade cfg s t p).2 = .divisionByZero)
    ∧ (s.current_balance ≠ 0 →
        (can_execute_trade cfg s t p).2 ≠ .divisionByZero) := by
  constructor
  · intro h1 h2 h3 h0
    have hc := check_risk_status_eq_of_none cfg s h2
    simp [can_execute_trade, h1, hc, h3, h0]
  · intro hb
    by_cases h1 : s.circuit_breaker_tripped
    · simp [can_execute_trade, h1]
    · have hbal := check_risk_status_balance cfg s
      rcases hch : check_risk_status cfg s with ⟨s1, exc⟩
      rw [hch] at hbal
      cases exc with
      | some e => simp [can_execute_trade, h1, hch]
      | none =>
        simp only [can_execute_trade, h1, hch, Bool.false_eq_true, if_false]
        split
        · simp
        · split
          · simp_all
          · split <;> simp

/-- Witness for C10: a zero-balance account passes every earlier check
and hits the division, while the fresh $100000 account does not. -/
theorem can_execute_trade_zero_balance_witness :
    (can_execute_trade demoConfig (initRiskState 0) 5 0).2 = .divisionByZero
    ∧ (can_execute_trade demoConfig (initRiskState 100000) 5 0).2
        ≠ .divisionByZero :=
  ⟨(can_execute_trade_zero_balance demoConfig (initRiskState 0) 5 0).1
      rfl
      (by norm_num [check_risk_status, initRiskState, demoConfig])
      (by norm_num [demoConfig])
      rfl,
   (can_execute_trade_zero_balance demoConfig (initRiskState 100000) 5 0).2
      (by norm_num [initRiskState])⟩

/-- C2 fails on the code: on a fresh $100000 account under
`demoConfig`, `execute_order` with `qty = 200` gates on a notional of
$20000, `can_execute_trade` raises `OrderRejectedRisk`, and the
exception escapes `execute_order` — `BaseStrategy.run`'s blanket
handler then calls `emergency_stop`, which halts the loop. A gate that
merely returns false (tripped breaker) is dropped locally and the loop
keeps running, as the claim says. -/
theorem order_rejected_escapes_and_halts :
    (execute_order demoConfig (initRiskState 100000) 200).2
      = .exceptionEscaped .orderRejectedRisk
    ∧ run_step_continues
        (execute_order demoConfig (initRiskState 100000) 200).2 = false
    ∧ (execute_order demoConfig trippedState 200).2 = .dropped
    ∧ run_step_continues (execute_order demoConfig trippedState 200).2
        = true := by
  refine ⟨?_, ?_, ?_, ?_⟩ <;>
    norm_num [execute_order, can_execute_trade, check_risk_status,
      initRiskState, trippedState, demoConfig, run_step_continues]

/-- C6 fails on the code: under `wideConfig` ($15000 cap) on a fresh
$100000 account, an order of 200 shares at price $50 has full notional
$10000 with no existing exposure, which the spec's full-notional gate
submits; the code's `execute_order` gates on `qty * 100 = 20000` and
raises `OrderRejectedRisk` instead. -/
theorem full_notional_gate_counterexample :
    (execute_order wideConfig (initRiskState 100000) 200).2
      = .exceptionEscaped .orderRejectedRisk
    ∧ (execute_order_fullNotional wideConfig (initRiskState 100000)
        50 200 0).2 = .submitted := by
  constructor <;>
    norm_num [execute_order, execute_order_fullNotional, can_execute_trade,
      check_risk_status, initRiskState, wideConfig]

/-- C6 amended: `execute_order` gates every order on the notional
`qty * 100` (the hard-coded $100-per-share approximation) with zero
existing exposure — the price does not enter the gate: with the breaker
untripped and a clean status check, the order raises `OrderRejectedRisk`
when `qty * 100` exceeds `max_position_size`, and is submitted when
`qty * 100` passes the size and leverage checks. -/
theorem execute_order_gates_on_qty_times_100 (cfg : RiskConfig)
    (s : RiskState) (qty : ℚ) :
    (s.circuit_breaker_tripped = false →
      (check_risk_status cfg s).2 = none →
      cfg.max_position_size < qty * 100 →
      (execute_order cfg s qty).2 = .exceptionEscaped .orderRejectedRisk)
    ∧ (s.circuit_breaker_tripped = false →
        (check_risk_status cfg s).2 = none →
        ¬ cfg.max_position_size < qty * 100 →
        s.current_balance ≠ 0 →
        ¬ cfg.max_leverage + 1/10 <
            (s.current_balance + qty * 100) / s.current_balance →
        (execute_order cfg s qty).2 = .submitted) := by
  constructor
  · intro h1 h2 h3
    have hc := check_risk_status_eq_of_none cfg s h2
    simp [execute_order, can_execute_trade, h1, hc, h3]
  · intro h1 h2 h3 h0 hl
    have hc := check_risk_status_eq_of_none cfg s h2
    rw [one_div] at hl
    simp [execute_order, can_execute_trade, h1, hc, h3, h0, hl]

/-- Witness for the amended C6: the counterexample order (200 shares,
$15000 cap) is rejected through the `qty * 100` gate, and 100 shares
($10000 via the gate) go through. -/
theorem execute_order_gates_on_qty_times_100_witness :
    (execute_order wideConfig (initRiskState 100000) 200).2
      = .exceptionEscaped .orderRejectedRisk
    ∧ (execute_order wideConfig (initRiskState 100000) 100).2
        = .submitted :=
  ⟨(execute_order_gates_on_qty_times_100 wideConfig
      (initRiskState 100000) 200).1
      rfl
      (by norm_num [check_risk_status, initRiskState, wideConfig])
      (by norm_num [wideConfig]),
   (execute_order_gates_on_qty_times_100 wideConfig
      (initRiskState 100000) 100).2
      rfl
      (by norm_num [check_risk_status, initRiskState, wideConfig])
      (by norm_num [wideConfig])
      (by norm_num [initRiskState])
      (by norm_num [initRiskState, wideConfig])⟩

/-- C7 fails on the code: with only leg B in the position cache (not
Flat), a z-score of 3 still produces the short entry, because both entry
branches test only whether symbol A is held. -/
theorem entry_requires_flat_counterexample :
    signal_logic false true 3 = .enterShortAlongB
    ∧ isFlat false true = false := by
  constructor
  · norm_num [signal_logic]
  · rfl

/-- C7 amended: an entry is produced exactly when no catastrophe is in
force, the z-score clears the matching entry threshold, and leg A is not
held — the B leg is never consulted, so an entry can fire while leg B
alone is held. -/
theorem entry_gating (hasA hasB : Bool) (z : ℚ) :
    (signal_logic hasA hasB z = .enterShortAlongB ↔
      (¬ 4 < |z| ∧ 21/10 < z ∧ hasA = false))
    ∧ (signal_logic hasA hasB z = .enterLongAShortB ↔
      (¬ 4 < |z| ∧ z < -(21/10) ∧ hasA = false)) := by
  by_cases h1 : (4:ℚ) < |z|
  · cases hasA <;> cases hasB <;> simp [signal_logic, h1]
  · by_cases h2 : (21:ℚ)/10 < z
    · have h3 : ¬ z < -(21/10) := fun hc => absurd h2 (by linarith)
      cases hasA <;> cases hasB <;> simp [signal_logic, h1, h2, h3]
    · by_cases h3 : z < -(21/10)
      · cases hasA <;> cases hasB <;> simp [signal_logic, h1, h2, h3]
      · cases hasA <;> cases hasB <;>
          simp [signal_logic, h1, h2, h3] <;>
          exact ⟨by split <;> simp, by split <;> simp⟩

/-- C8: whenever the z-score exceeds the catastrophe threshold of 4 in
magnitude, the tick's only possible action is the flatten (when any leg
is held) or nothing (when flat) — no entry and no exit is produced, even
though such a z-score always clears the entry threshold. -/
theorem catastrophe_overrides (hasA hasB : Bool) (z : ℚ) (h : 4 < |z|) :
    signal_logic hasA hasB z =
      (if hasA || hasB then Signal.catastropheFlatten else Signal.hold)
    ∧ signal_logic hasA hasB z ≠ .enterShortAlongB
    ∧ signal_logic hasA hasB z ≠ .enterLongAShortB
    ∧ signal_logic hasA hasB z ≠ .exitFlatten := by
  have h1 : signal_logic hasA hasB z =
      (if hasA || hasB then Signal.catastropheFlatten else Signal.hold) := by
    simp [signal_logic, h]
  refine ⟨h1, ?_, ?_, ?_⟩ <;> rw [h1] <;> split <;> simp

/-- Witness for C8: a flat book and z = −5 produce no action at all. -/
theorem catastrophe_overrides_witness :
    signal_logic false false (-5) =
      (if false || false then Signal.catastropheFlatten else Signal.hold)
    ∧ signal_logic false false (-5) ≠ .enterShortAlongB
    ∧ signal_logic false false (-5) ≠ .enterLongAShortB
    ∧ signal_logic false false (-5) ≠ .exitFlatten :=
  catastrophe_overrides false false (-5) (by norm_num)

/-- C9: whenever the spread history after the tick's append is full but
has zero population variance (equivalently, zero standard deviation),
the tick holds: no order and no position change, whatever the current
spread and z-score. -/
theorem zero_std_holds (w : Nat) (hasA hasB : Bool) (history : List ℚ)
    (pA pB z : ℚ) (h : spreadVar (deqAppend w history (pA - pB)) = 0) :
    calculate_signals_tick w hasA hasB history pA pB z = .hold
    ∧ signal_apply hasA hasB
        (calculate_signals_tick w hasA hasB history pA pB z)
        = (hasA, hasB) := by
  have ht : calculate_signals_tick w hasA hasB history pA pB z = .hold := by
    unfold calculate_signals_tick
    split
    · rfl
    · simp [h]
  exact ⟨ht, by rw [ht]; rfl⟩

/-- Witness for C9: the spec's scenario — a window of 60 with sixty
identical spreads of 10 — holds and keeps the lone held leg B. -/
theorem zero_std_holds_witness :
    calculate_signals_tick 60 false true (List.replicate 59 10) 20 10 42
      = .hold
    ∧ signal_apply false true
        (calculate_signals_tick 60 false true (List.replicate 59 10) 20 10 42)
        = (false, true) :=
  zero_std_holds 60 false true (List.replicate 59 10) 20 10 42
    (by norm_num [spreadVar, spreadMean, deqAppend, List.sum_replicate])

end PropFirm
